import Mathlib

/-!
Shallow embedding of the silent-abyss procedural sonar DSP core
(`src/audio/dsp-core/src/lib.rs`) over exact rationals.

f32 arithmetic is idealised as exact `ℚ` arithmetic.  The transcendental
f32 primitives (`sin`, `cos`, `tanh`, `hypot`, `powf`) have no exact
rational counterpart, so the whole development is parametric in a record
`RealFns` supplying them; every theorem below holds for an arbitrary such
record, and concrete witnesses instantiate it with simple total functions.
The f32 constant `std::f32::consts::PI` is embedded as the exact rational
value of that f32 bit pattern.
-/

namespace SilentAbyss

/-- Abstract versions of the f32 transcendental primitives used by the code. -/
structure RealFns where
  sin : ℚ → ℚ
  cos : ℚ → ℚ
  tanh : ℚ → ℚ
  hypot : ℚ → ℚ → ℚ
  pow : ℚ → ℚ → ℚ

/-- A trivial instantiation of `RealFns`, used by concrete witnesses. -/
def zeroFns : RealFns where
  sin := fun _ => 0
  cos := fun _ => 0
  tanh := fun _ => 0
  hypot := fun _ _ => 0
  pow := fun _ _ => 0

/-- The exact rational value of the f32 constant `std::f32::consts::PI`. -/
def PI : ℚ := 13176795 / 4194304

/-- Source: `const TWO_PI: f32 = 2.0 * PI;` -/
def TWO_PI : ℚ := 2 * PI

/-- Source: `fn clamp(v, lo, hi) = v.max(lo).min(hi)` -/
def clamp (v lo hi : ℚ) : ℚ := min (max v lo) hi

/-- Truncate the low 32 bits, modelling u32 wrapping. -/
def u32mask (n : ℕ) : ℕ := n % 4294967296

/-- Rust `as u32` / `as usize` cast of a nonnegative f32: truncation
toward zero, saturating at the integer bounds. -/
def ratToU32 (q : ℚ) : ℕ := min (Int.toNat ⌊q⌋) 4294967295

/-- Source: `fn xorshift32(state: &mut u32) -> u32` (returns the new state). -/
def xorshift32 (s : ℕ) : ℕ :=
  let x1 := u32mask (s ^^^ (s <<< 13))
  let x2 := x1 ^^^ (x1 >>> 17)
  u32mask (x2 ^^^ (x2 <<< 5))

/-- Source: `fn rand_signed(state) = (x as f32 / u32::MAX as f32) * 2.0 - 1.0`,
returning the drawn value together with the advanced RNG state. -/
def rand_signed (s : ℕ) : ℚ × ℕ :=
  let x := xorshift32 s
  ((x : ℚ) / 4294967295 * 2 - 1, x)

/-! ## Envelope-spectrum analyzer (`compute_demon_spectrum`) -/

/-- An f32-valued argument together with its finiteness flag (`is_finite()`):
the embedding keeps floats as exact rationals, so non-finiteness is recorded
separately. -/
structure F32 where
  val : ℚ
  finite : Bool
deriving DecidableEq, Repr

/-- Source: `let band_low = if input_band_low_hz.is_finite() { max(.., 1.0) } else { 20.0 }` -/
def resolveBandLow (bl : F32) : ℚ :=
  if bl.finite then max bl.val 1 else 20

/-- Source: `let band_high = if input_band_high_hz.is_finite() { max(.., band_low + 1.0) } else { 1800.0 }` -/
def resolveBandHigh (band_low : ℚ) (bh : F32) : ℚ :=
  if bh.finite then max bh.val (band_low + 1) else 1800

/-- Source: `let env_hp = if envelope_hp_hz.is_finite() { max(.., 0.1) } else { 1.0 }` -/
def resolveEnvHp (ehp : F32) : ℚ :=
  if ehp.finite then max ehp.val 0.1 else 1

/-- Source: `let decim_target = if decimated_rate_target_hz.is_finite() { max(.., 100.0) } else { 500.0 }` -/
def resolveDecim (drt : F32) : ℚ :=
  if drt.finite then max drt.val 100 else 500

/-- Source: `let d = ((sample_rate / decim_target).floor() as usize).max(1);` -/
def decimFactor (srv decim_target : ℚ) : ℕ :=
  max (Int.toNat ⌊srv / decim_target⌋) 1

/-- Running state of the band-pass + rectify + decimate loop. -/
structure BandState where
  hp_y : ℚ
  hp_prev_x : ℚ
  lp_y : ℚ
  accum : ℚ
  out : List ℚ

/-- One iteration of the first analyzer loop (lines 95-106 of the source):
high-pass, low-pass, rectified accumulation, and the block-average write
whenever `(i + 1) % d == 0`. -/
def bandStep (mean hp_alpha lp_alpha : ℚ) (d : ℕ) (st : BandState) (p : ℕ × ℚ) : BandState :=
  let x := p.2 - mean
  let hp_y := hp_alpha * (st.hp_y + x - st.hp_prev_x)
  let lp_y := st.lp_y + lp_alpha * (hp_y - st.lp_y)
  let accum := st.accum + |lp_y|
  if (p.1 + 1) % d = 0 then
    ⟨hp_y, x, lp_y, 0, st.out ++ [accum / (d : ℚ)]⟩
  else
    ⟨hp_y, x, lp_y, accum, st.out⟩

/-- The decimated envelope produced by the first analyzer loop. -/
def decimEnv (input : List ℚ) (mean hp_alpha lp_alpha : ℚ) (d : ℕ) : List ℚ :=
  (input.enum.foldl (bandStep mean hp_alpha lp_alpha d) ⟨0, 0, 0, 0, []⟩).out

/-- Second analyzer loop: one-pole high-pass over the decimated envelope,
with `env_hp_prev_x` seeded from `decim_env[0]`. -/
def envHpAll (alpha : ℚ) (xs : List ℚ) : List ℚ :=
  (xs.foldl
    (fun (acc : ℚ × ℚ × List ℚ) x =>
      let y := alpha * (acc.1 + x - acc.2.1)
      (y, x, acc.2.2 ++ [y]))
    (0, xs.headI, [])).2.2

/-- Third analyzer loop, for one frequency bin `f`: Hann-windowed partial
DFT magnitude normalised by the decimated sample count. -/
def binMag (ops : RealFns) (signal : List ℚ) (n_decim : ℕ) (hann_denom decim_sr : ℚ)
    (f : ℕ) : ℚ :=
  let omega := 2 * PI * (f : ℚ) / decim_sr
  let s := signal.enum.foldl
    (fun (acc : ℚ × ℚ) (p : ℕ × ℚ) =>
      let hann := 0.5 * (1 - ops.cos ((2 * PI * (p.1 : ℚ)) / hann_denom))
      let v := p.2 * hann
      let angle := omega * (p.1 : ℚ)
      (acc.1 + v * ops.cos angle, acc.2 - v * ops.sin angle))
    (0, 0)
  ops.hypot s.1 s.2 / (n_decim : ℚ)

/-- The main analyzer pipeline (everything after the first validation check),
with the four tunable frequencies already resolved. -/
def spectrumBody (ops : RealFns) (input : List ℚ) (srv : ℚ) (max_freq : ℕ)
    (band_low band_high env_hp decim_target : ℚ) : List ℚ :=
  let n_raw := input.length
  let mean_raw := input.sum / (n_raw : ℚ)
  let hp_rc := 1 / (2 * PI * band_low)
  let lp_rc := 1 / (2 * PI * band_high)
  let dt := 1 / srv
  let hp_alpha := hp_rc / (hp_rc + dt)
  let lp_alpha := dt / (lp_rc + dt)
  let d := decimFactor srv decim_target
  let decim_sr := srv / (d : ℚ)
  let n_decim := n_raw / d
  if n_decim < 8 then List.replicate (max_freq + 1) 0
  else
    let decim_env := decimEnv input mean_raw hp_alpha lp_alpha d
    let env_hp_rc := 1 / (2 * PI * env_hp)
    let decim_dt := 1 / decim_sr
    let env_hp_alpha := env_hp_rc / (env_hp_rc + decim_dt)
    let signal := envHpAll env_hp_alpha decim_env
    let hann_denom : ℚ := (max (n_decim - 1) 1 : ℕ)
    0 :: (List.range max_freq).map
      (fun k => binMag ops signal n_decim hann_denom decim_sr (k + 1))

/-- Source: `pub fn compute_demon_spectrum(input, sample_rate, max_freq_hz, ...)`. -/
def compute_demon_spectrum (ops : RealFns) (input : List ℚ) (sample_rate : F32)
    (max_freq : ℕ) (bl bh ehp drt : F32) : List ℚ :=
  if input.length < 64 ∨ sample_rate.finite = false ∨ sample_rate.val ≤ 0 then
    List.replicate (max_freq + 1) 0
  else
    let band_low := resolveBandLow bl
    spectrumBody ops input sample_rate.val max_freq
      band_low (resolveBandHigh band_low bh) (resolveEnvHp ehp) (resolveDecim drt)

/-! ## Engine harmonic generator -/

/-- Source: `struct EngineState` -/
structure EngineState where
  phase : ℚ
  current_rpm : ℚ
  target_rpm : ℚ
  blades : ℚ
deriving DecidableEq, Repr

/-- Source: `EngineState::new()` -/
def EngineState.new : EngineState :=
  ⟨0, 0, 0, 5⟩

/-- Source: `EngineState::tick(&mut self, sample_rate) -> f32`, returning the updated
state together with the output sample. -/
def EngineState.tick (ops : RealFns) (sample_rate : ℚ) (s : EngineState) :
    EngineState × ℚ :=
  let current := s.current_rpm * 0.99 + s.target_rpm * 0.01
  if current < 0.05 then
    ({ s with current_rpm := current }, 0)
  else
    let base_hz := current / 60 * s.blades
    let delta := TWO_PI * base_hz / sample_rate
    let p1 := s.phase + delta
    let phase := if TWO_PI ≤ p1 then p1 - TWO_PI else p1
    let harmonic_signal := ops.sin phase * 0.60 + ops.sin (2 * phase) * 0.25
      + ops.sin (3 * phase) * 0.15 + ops.sin (0.5 * phase) * 0.05
    let amplitude := min (current / 220) 0.30
    ({ s with current_rpm := current, phase := phase },
     ops.tanh (harmonic_signal * 1.5) * amplitude)

/-- Iterated engine ticks (state component only). -/
def EngineState.run (ops : RealFns) (sample_rate : ℚ) : ℕ → EngineState → EngineState
  | 0, s => s
  | n + 1, s => EngineState.run ops sample_rate n (EngineState.tick ops sample_rate s).1

/-! ## Cavitation noise generator -/

/-- Source: `struct CavState` -/
structure CavState where
  lp_noise : ℚ
  shaped_noise : ℚ
deriving DecidableEq, Repr

/-- Source: `CavState::new()` -/
def CavState.new : CavState := ⟨0, 0⟩

/-- Source: `CavState::tick(&mut self, rpm, phase, rng) -> f32`, returning the updated
filter state, the advanced RNG state, and the output sample. -/
def CavState.tick (ops : RealFns) (c : CavState) (rpm phase : ℚ) (rng : ℕ) :
    CavState × ℕ × ℚ :=
  if rpm < 1 then (⟨0, 0⟩, rng, 0)
  else
    let w := rand_signed rng
    let white := w.1
    let lp_noise := c.lp_noise + 0.08 * (white - c.lp_noise)
    let hp := white - lp_noise
    let shaped_noise := c.shaped_noise + 0.35 * (hp - c.shaped_noise)
    let speed_norm := clamp ((rpm - 60) / 320) 0 1
    let intensity := 0.01 + speed_norm * speed_norm * speed_norm * 0.78
    let blade_mod := 0.5 + 0.5 * ops.sin phase
    (⟨lp_noise, shaped_noise⟩, w.2, shaped_noise * intensity * (0.35 + 0.65 * blade_mod))

/-! ## Biological sound library -/

/-- Source: `struct ChirpState` -/
structure ChirpState where
  samples_to_next : ℕ
  env : ℚ
  phase : ℚ
  start_hz : ℚ
  end_hz : ℚ
  progress : ℚ
deriving DecidableEq, Repr

/-- Source: `ChirpState::new()` -/
def ChirpState.new : ChirpState :=
  ⟨0, 0, 0, 1600, 450, 1⟩

/-- Source: `ChirpState::schedule_next` -/
def ChirpState.schedule_next (sample_rate rpm bio_rate : ℚ) (s : ChirpState) (rng : ℕ) :
    ChirpState × ℕ :=
  let speed := clamp (rpm / 280) 0 1
  let rate_scale := 1.25 - 0.8 * bio_rate
  let base_ms := 110 - 70 * speed
  let r := xorshift32 rng
  let jitter := 0.55 + 0.9 * ((r : ℚ) / 4294967295)
  let ms := max (base_ms * rate_scale * jitter) 12
  ({ s with samples_to_next := ratToU32 (sample_rate * ms * 0.001) }, r)

/-- Source: `ChirpState::trigger_click` -/
def ChirpState.trigger_click (rpm : ℚ) (s : ChirpState) (rng : ℕ) : ChirpState × ℕ :=
  let speed := clamp (rpm / 280) 0 1
  let r := xorshift32 rng
  let rnd := (r : ℚ) / 4294967295
  ({ s with env := 0.9, phase := 0, progress := 0,
            start_hz := 1400 + 1200 * speed + 300 * rnd,
            end_hz := 300 + 450 * (1 - speed) }, r)

/-- Source: `ChirpState::tick` -/
def ChirpState.tick (ops : RealFns) (sample_rate rpm bio_rate : ℚ) (s : ChirpState)
    (rng : ℕ) : ChirpState × ℕ × ℚ :=
  let sr1 :=
    if s.samples_to_next = 0 then
      let t := ChirpState.trigger_click rpm s rng
      ChirpState.schedule_next sample_rate rpm bio_rate t.1 t.2
    else
      ({ s with samples_to_next := s.samples_to_next - 1 }, rng)
  let s1 := sr1.1
  let r1 := sr1.2
  if s1.env ≤ 0.0001 then (s1, r1, 0)
  else
    let chirp_hz := s1.start_hz + (s1.end_hz - s1.start_hz) * s1.progress
    let p1 := s1.phase + TWO_PI * chirp_hz / sample_rate
    let phase := if TWO_PI ≤ p1 then p1 - TWO_PI else p1
    let env := s1.env * 0.94
    let progress := min (s1.progress + 0.045) 1
    ({ s1 with phase := phase, env := env, progress := progress }, r1,
     ops.sin phase * env)

/-- Source: `struct SnappingShrimpState` -/
structure SnappingShrimpState where
  samples_to_next : ℕ
  burst_left : ℕ
  env : ℚ
  hp_state : ℚ
deriving DecidableEq, Repr

/-- Source: `SnappingShrimpState::new()` -/
def SnappingShrimpState.new : SnappingShrimpState := ⟨0, 0, 0, 0⟩

/-- Source: `SnappingShrimpState::schedule_next` -/
def SnappingShrimpState.schedule_next (sample_rate bio_rate : ℚ)
    (s : SnappingShrimpState) (rng : ℕ) : SnappingShrimpState × ℕ :=
  let r := xorshift32 rng
  let jitter := 0.4 + 1.2 * ((r : ℚ) / 4294967295)
  let base_ms := 140 - 136 * bio_rate
  let ms := max (base_ms * jitter) 1
  ({ s with samples_to_next := ratToU32 (sample_rate * ms * 0.001) }, r)

/-- Source: `SnappingShrimpState::trigger_snap` -/
def SnappingShrimpState.trigger_snap (sample_rate : ℚ) (s : SnappingShrimpState)
    (rng : ℕ) : SnappingShrimpState × ℕ :=
  let r := xorshift32 rng
  let dur_ms := 1 + (r : ℚ) / 4294967295
  ({ s with burst_left := ratToU32 (sample_rate * dur_ms * 0.001), env := 1 }, r)

/-- Source: `SnappingShrimpState::tick` -/
def SnappingShrimpState.tick (sample_rate bio_rate : ℚ) (s : SnappingShrimpState)
    (rng : ℕ) : SnappingShrimpState × ℕ × ℚ :=
  let sr1 :=
    if s.samples_to_next = 0 then
      let t := SnappingShrimpState.trigger_snap sample_rate s rng
      SnappingShrimpState.schedule_next sample_rate bio_rate t.1 t.2
    else
      ({ s with samples_to_next := s.samples_to_next - 1 }, rng)
  let s1 := sr1.1
  let r1 := sr1.2
  if s1.burst_left = 0 ∧ s1.env < 0.0001 then (s1, r1, 0)
  else
    let w := rand_signed r1
    let white := w.1
    let hp_state := s1.hp_state + 0.30 * (white - s1.hp_state)
    let transient := white - hp_state
    let be : ℕ × ℚ :=
      if 0 < s1.burst_left then (s1.burst_left - 1, s1.env * 0.72)
      else (s1.burst_left, s1.env * 0.2)
    ({ s1 with hp_state := hp_state, burst_left := be.1, env := be.2 }, w.2,
     transient * be.2 * 0.9)

/-- Source: `struct WhaleMoanState` -/
structure WhaleMoanState where
  phase : ℚ
  lfo_phase : ℚ
  drift : ℚ
deriving DecidableEq, Repr

/-- Source: `WhaleMoanState::new()` -/
def WhaleMoanState.new : WhaleMoanState := ⟨0, 0, 0⟩

/-- Source: `WhaleMoanState::tick` -/
def WhaleMoanState.tick (ops : RealFns) (sample_rate bio_rate : ℚ) (s : WhaleMoanState)
    (rng : ℕ) : WhaleMoanState × ℕ × ℚ :=
  let w := rand_signed rng
  let drift_target := w.1 * 0.02
  let drift := s.drift + 0.0008 * (drift_target - s.drift)
  let lfo_hz := 0.08 + bio_rate * 0.32
  let l1 := s.lfo_phase + TWO_PI * lfo_hz / sample_rate
  let lfo_phase := if TWO_PI ≤ l1 then l1 - TWO_PI else l1
  let base_hz := 40 + 110 * bio_rate
  let wobble := ops.sin lfo_phase * (10 + 20 * bio_rate)
  let inst_hz := max (base_hz + wobble + drift * 140) 20
  let p1 := s.phase + TWO_PI * inst_hz / sample_rate
  let phase := if TWO_PI ≤ p1 then p1 - TWO_PI else p1
  let moan := ops.sin phase * 0.75 + ops.sin (0.5 * phase) * 0.35
    + ops.sin (1.5 * phase) * 0.12
  (⟨phase, lfo_phase, drift⟩, w.2, moan * 0.42)

/-- Source: `struct DolphinWhistleState` -/
structure DolphinWhistleState where
  samples_to_next : ℕ
  env : ℚ
  phase : ℚ
  start_hz : ℚ
  end_hz : ℚ
  progress : ℚ
  vibrato_phase : ℚ
deriving DecidableEq, Repr

/-- Source: `DolphinWhistleState::new()` -/
def DolphinWhistleState.new : DolphinWhistleState :=
  ⟨0, 0, 0, 5000, 7600, 1, 0⟩

/-- Source: `DolphinWhistleState::schedule_next` -/
def DolphinWhistleState.schedule_next (sample_rate bio_rate : ℚ)
    (s : DolphinWhistleState) (rng : ℕ) : DolphinWhistleState × ℕ :=
  let r := xorshift32 rng
  let jitter := 0.6 + (r : ℚ) / 4294967295
  let base_ms := 320 - 210 * bio_rate
  let ms := max (base_ms * jitter) 35
  ({ s with samples_to_next := ratToU32 (sample_rate * ms * 0.001) }, r)

/-- Source: `DolphinWhistleState::trigger_whistle` -/
def DolphinWhistleState.trigger_whistle (bio_rate : ℚ) (s : DolphinWhistleState)
    (rng : ℕ) : DolphinWhistleState × ℕ :=
  let ra := xorshift32 rng
  let rb := xorshift32 ra
  let r0 := (ra : ℚ) / 4294967295
  let r1 := (rb : ℚ) / 4294967295
  let start := 3200 + r0 * 6800
  let span := (r1 * 2 - 1) * (1500 + 1900 * bio_rate)
  ({ s with start_hz := start, end_hz := clamp (start + span) 3000 15000,
            phase := 0, progress := 0, env := 1 }, rb)

/-- Source: `DolphinWhistleState::tick` -/
def DolphinWhistleState.tick (ops : RealFns) (sample_rate bio_rate : ℚ)
    (s : DolphinWhistleState) (rng : ℕ) : DolphinWhistleState × ℕ × ℚ :=
  let sr1 :=
    if s.samples_to_next = 0 then
      let t := DolphinWhistleState.trigger_whistle bio_rate s rng
      DolphinWhistleState.schedule_next sample_rate bio_rate t.1 t.2
    else
      ({ s with samples_to_next := s.samples_to_next - 1 }, rng)
  let s1 := sr1.1
  let r1 := sr1.2
  if s1.env ≤ 0.0001 then (s1, r1, 0)
  else
    let t := s1.progress
    let curved := t * t * (3 - 2 * t)
    let glide_hz := s1.start_hz + (s1.end_hz - s1.start_hz) * curved
    let v1 := s1.vibrato_phase + TWO_PI * (5 + 3 * bio_rate) / sample_rate
    let vibrato_phase := if TWO_PI ≤ v1 then v1 - TWO_PI else v1
    let vib := 1 + 0.015 * ops.sin vibrato_phase
    let p1 := s1.phase + TWO_PI * glide_hz * vib / sample_rate
    let phase := if TWO_PI ≤ p1 then p1 - TWO_PI else p1
    let env := s1.env * 0.9965
    let progress := min (s1.progress + (0.0018 + 0.0012 * bio_rate)) 1
    ({ s1 with vibrato_phase := vibrato_phase, phase := phase, env := env,
               progress := progress }, r1, ops.sin phase * env * 0.30)

/-- Source: `struct EcholocationClickState` -/
structure EcholocationClickState where
  samples_to_next : ℕ
  burst_left : ℕ
  phase : ℚ
  env : ℚ
  click_hz : ℚ
deriving DecidableEq, Repr

/-- Source: `EcholocationClickState::new()` -/
def EcholocationClickState.new : EcholocationClickState :=
  ⟨0, 0, 0, 0, 9500⟩

/-- Source: `EcholocationClickState::schedule_next` -/
def EcholocationClickState.schedule_next (sample_rate bio_rate : ℚ)
    (s : EcholocationClickState) (rng : ℕ) : EcholocationClickState × ℕ :=
  let r := xorshift32 rng
  let jitter := 0.7 + 0.6 * ((r : ℚ) / 4294967295)
  let base_ms := 60 - 55 * bio_rate
  let ms := max (base_ms * jitter) 1.2
  ({ s with samples_to_next := ratToU32 (sample_rate * ms * 0.001) }, r)

/-- Source: `EcholocationClickState::trigger_click` -/
def EcholocationClickState.trigger_click (sample_rate bio_rate : ℚ)
    (s : EcholocationClickState) (rng : ℕ) : EcholocationClickState × ℕ :=
  let r := xorshift32 rng
  let rq := (r : ℚ) / 4294967295
  ({ s with click_hz := 7000 + 7000 * (0.35 * bio_rate + 0.65 * rq),
            burst_left := ratToU32 (sample_rate * 0.00025) + 1,
            phase := 0, env := 1 }, r)

/-- Source: `EcholocationClickState::tick` -/
def EcholocationClickState.tick (ops : RealFns) (sample_rate bio_rate : ℚ)
    (s : EcholocationClickState) (rng : ℕ) : EcholocationClickState × ℕ × ℚ :=
  let sr1 :=
    if s.samples_to_next = 0 then
      let t := EcholocationClickState.trigger_click sample_rate bio_rate s rng
      EcholocationClickState.schedule_next sample_rate bio_rate t.1 t.2
    else
      ({ s with samples_to_next := s.samples_to_next - 1 }, rng)
  let s1 := sr1.1
  let r1 := sr1.2
  if s1.burst_left = 0 then
    ({ s1 with env := s1.env * 0.05 }, r1, 0)
  else
    let p1 := s1.phase + TWO_PI * s1.click_hz / sample_rate
    let phase := if TWO_PI ≤ p1 then p1 - TWO_PI else p1
    let env := s1.env * 0.45
    ({ s1 with burst_left := s1.burst_left - 1, phase := phase, env := env }, r1,
     ops.sin phase * env * 0.85)

/-- Source: `struct HumpbackSongState` -/
structure HumpbackSongState where
  samples_to_next : ℕ
  unit_samples_left : ℕ
  unit_kind : ℕ
  phase : ℚ
  mod_phase : ℚ
  env : ℚ
  current_hz : ℚ
  target_hz : ℚ
  unit_progress : ℚ
deriving DecidableEq, Repr

/-- Source: `HumpbackSongState::new()` -/
def HumpbackSongState.new : HumpbackSongState :=
  ⟨0, 0, 0, 0, 0, 0, 220, 220, 1⟩

/-- Source: `HumpbackSongState::schedule_gap` -/
def HumpbackSongState.schedule_gap (sample_rate bio_rate : ℚ)
    (s : HumpbackSongState) (rng : ℕ) : HumpbackSongState × ℕ :=
  let r := xorshift32 rng
  let jitter := 0.6 + (r : ℚ) / 4294967295
  let base_ms := 320 - 220 * bio_rate
  let gap_ms := max (base_ms * jitter) 30
  ({ s with samples_to_next := ratToU32 (sample_rate * gap_ms * 0.001) }, r)

/-- Source: `HumpbackSongState::trigger_unit` -/
def HumpbackSongState.trigger_unit (sample_rate bio_rate : ℚ)
    (s : HumpbackSongState) (rng : ℕ) : HumpbackSongState × ℕ :=
  let rk := xorshift32 rng
  let kind := rk % 3
  let base := { s with unit_kind := kind, phase := 0, mod_phase := 0,
                       env := 1, unit_progress := 0 }
  if kind = 0 then
    let r2 := xorshift32 rk
    let dur_ms := 450 + 650 * ((r2 : ℚ) / 4294967295)
    ({ base with unit_samples_left := ratToU32 (sample_rate * dur_ms * 0.001),
                 target_hz := 55 + 110 * bio_rate }, r2)
  else if kind = 1 then
    let r2 := xorshift32 rk
    let dur_ms := 260 + 420 * ((r2 : ℚ) / 4294967295)
    let r3 := xorshift32 r2
    ({ base with unit_samples_left := ratToU32 (sample_rate * dur_ms * 0.001),
                 target_hz := 380 + 620 * ((r3 : ℚ) / 4294967295) }, r3)
  else
    let r2 := xorshift32 rk
    let dur_ms := 320 + 480 * ((r2 : ℚ) / 4294967295)
    let r3 := xorshift32 r2
    ({ base with unit_samples_left := ratToU32 (sample_rate * dur_ms * 0.001),
                 target_hz := 120 + 340 * ((r3 : ℚ) / 4294967295) }, r3)

/-- Source: `HumpbackSongState::tick`.  The source mutates `self.phase` a second time
inside the `unit_kind == 2` output arm; the embedding mirrors that. -/
def HumpbackSongState.tick (ops : RealFns) (sample_rate bio_rate : ℚ)
    (s : HumpbackSongState) (rng : ℕ) : HumpbackSongState × ℕ × ℚ :=
  if s.unit_samples_left = 0 ∧ s.samples_to_next ≠ 0 then
    ({ s with samples_to_next := s.samples_to_next - 1 }, rng, 0)
  else
    let sr1 :=
      if s.unit_samples_left = 0 then HumpbackSongState.trigger_unit sample_rate bio_rate s rng
      else (s, rng)
    let s1 := sr1.1
    let r1 := sr1.2
    let usl := s1.unit_samples_left - 1
    let sr2 :=
      if usl = 0 then
        HumpbackSongState.schedule_gap sample_rate bio_rate
          { s1 with unit_samples_left := usl } r1
      else ({ s1 with unit_samples_left := usl }, r1)
    let s2 := sr2.1
    let r2 := sr2.2
    let current_hz := s2.current_hz + 0.0025 * (s2.target_hz - s2.current_hz)
    let m1 := s2.mod_phase + TWO_PI * (0.2 + 0.9 * bio_rate) / sample_rate
    let mod_phase := if TWO_PI ≤ m1 then m1 - TWO_PI else m1
    let mod_scale := 1 + 0.10 * ops.sin mod_phase
    let p1 := s2.phase + TWO_PI * current_hz * mod_scale / sample_rate
    let phase := if TWO_PI ≤ p1 then p1 - TWO_PI else p1
    let unit_progress := min (s2.unit_progress + 1 / (sample_rate * 0.7)) 1
    let attack := min (unit_progress / 0.12) 1
    let release := 1 - ops.pow unit_progress 1.8
    let env := attack * max release 0
    let s3 := { s2 with current_hz := current_hz, mod_phase := mod_phase,
                        phase := phase, unit_progress := unit_progress, env := env }
    if s2.unit_kind = 0 then
      (s3, r2,
       (ops.sin phase * 0.75 + ops.sin (0.5 * phase) * 0.35
         + ops.sin (1.4 * phase) * 0.12) * env * 0.40)
    else if s2.unit_kind = 1 then
      (s3, r2, (ops.sin phase * 0.9 + ops.sin (2.03 * phase) * 0.08) * env * 0.34)
    else
      let rise := unit_progress * unit_progress
      let sweep := current_hz * (0.8 + 0.6 * rise)
      let phase2 := phase + TWO_PI * (sweep - current_hz) / sample_rate
      ({ s3 with phase := phase2 }, r2,
       (ops.sin phase2 * 0.8 + ops.sin (1.5 * phase2) * 0.15) * env * 0.36)

/-! ## Biological mode switching and crossfade -/

/-- Source: `enum BioType` -/
inductive BioType where
  | Chirp
  | SnappingShrimp
  | WhaleMoan
  | DolphinWhistle
  | EcholocationClick
  | HumpbackSong
deriving DecidableEq, Repr

/-- Source: `BioType::from_param`: `match clamp(value.round(), 0.0, 5.0) as u32` -/
def BioType.from_param (value : ℚ) : BioType :=
  match (min (max (round value) 0) 5).toNat with
  | 1 => .SnappingShrimp
  | 2 => .WhaleMoan
  | 3 => .DolphinWhistle
  | 4 => .EcholocationClick
  | 5 => .HumpbackSong
  | _ => .Chirp

/-- Source: `struct BioState` -/
structure BioState where
  bio_type : BioType
  prev_type : BioType
  bio_rate : ℚ
  xfade : ℚ
  chirp : ChirpState
  snapping_shrimp : SnappingShrimpState
  whale_moan : WhaleMoanState
  dolphin_whistle : DolphinWhistleState
  echolocation_click : EcholocationClickState
  humpback_song : HumpbackSongState
deriving DecidableEq, Repr

/-- Source: `BioState::new()` -/
def BioState.new : BioState :=
  ⟨.Chirp, .Chirp, 0.35, 1, ChirpState.new, SnappingShrimpState.new,
   WhaleMoanState.new, DolphinWhistleState.new, EcholocationClickState.new,
   HumpbackSongState.new⟩

/-- Source: `BioState::set_type` -/
def BioState.set_type (b : BioState) (next : BioType) : BioState :=
  if next = b.bio_type then b
  else { b with prev_type := b.bio_type, bio_type := next, xfade := 0 }

/-- Source: `BioState::set_rate` -/
def BioState.set_rate (b : BioState) (value : ℚ) : BioState :=
  { b with bio_rate := clamp value 0 1 }

/-- Source: `BioState::tick_mode` -/
def BioState.tick_mode (ops : RealFns) (sample_rate rpm : ℚ) (b : BioState)
    (mode : BioType) (rng : ℕ) : BioState × ℕ × ℚ :=
  match mode with
  | .Chirp =>
    let t := ChirpState.tick ops sample_rate rpm b.bio_rate b.chirp rng
    ({ b with chirp := t.1 }, t.2)
  | .SnappingShrimp =>
    let t := SnappingShrimpState.tick sample_rate b.bio_rate b.snapping_shrimp rng
    ({ b with snapping_shrimp := t.1 }, t.2)
  | .WhaleMoan =>
    let t := WhaleMoanState.tick ops sample_rate b.bio_rate b.whale_moan rng
    ({ b with whale_moan := t.1 }, t.2)
  | .DolphinWhistle =>
    let t := DolphinWhistleState.tick ops sample_rate b.bio_rate b.dolphin_whistle rng
    ({ b with dolphin_whistle := t.1 }, t.2)
  | .EcholocationClick =>
    let t := EcholocationClickState.tick ops sample_rate b.bio_rate b.echolocation_click rng
    ({ b with echolocation_click := t.1 }, t.2)
  | .HumpbackSong =>
    let t := HumpbackSongState.tick ops sample_rate b.bio_rate b.humpback_song rng
    ({ b with humpback_song := t.1 }, t.2)

/-- Source: `BioState::tick` -/
def BioState.tick (ops : RealFns) (sample_rate rpm : ℚ) (b : BioState) (rng : ℕ) :
    BioState × ℕ × ℚ :=
  if b.xfade < 1 then
    let ta := BioState.tick_mode ops sample_rate rpm b b.prev_type rng
    let b1 := ta.1
    let tb := BioState.tick_mode ops sample_rate rpm b1 b1.bio_type ta.2.1
    let b2 := tb.1
    let out := ta.2.2 * (1 - b.xfade) + tb.2.2 * b.xfade
    let step := 1 / (sample_rate * 0.015)
    ({ b2 with xfade := min (b2.xfade + step) 1 }, tb.2.1, out)
  else
    BioState.tick_mode ops sample_rate rpm b b.bio_type rng

/-- Iterated `BioState::tick`, threading the RNG state. -/
def BioState.run (ops : RealFns) (sample_rate rpm : ℚ) : ℕ → BioState × ℕ → BioState × ℕ
  | 0, p => p
  | n + 1, p =>
    let t := BioState.tick ops sample_rate rpm p.1 p.2
    BioState.run ops sample_rate rpm n (t.1, t.2.1)

/-- Equality of the per-mode sub-generator state selected by a `BioType`. -/
def BioState.sub_eq (x y : BioState) : BioType → Prop
  | .Chirp => x.chirp = y.chirp
  | .SnappingShrimp => x.snapping_shrimp = y.snapping_shrimp
  | .WhaleMoan => x.whale_moan = y.whale_moan
  | .DolphinWhistle => x.dolphin_whistle = y.dolphin_whistle
  | .EcholocationClick => x.echolocation_click = y.echolocation_click
  | .HumpbackSong => x.humpback_song = y.humpback_song

/-! ## Voice and voice pool -/

/-- Source: `struct Voice` -/
structure Voice where
  active : Bool
  gain : ℚ
  engine_mix : ℚ
  cav_mix : ℚ
  bio_mix : ℚ
  rng : ℕ
  engine : EngineState
  cav : CavState
  bio : BioState
deriving DecidableEq, Repr

/-- Source: `Voice::new(seed)` -/
def Voice.new (seed : ℕ) : Voice :=
  ⟨true, 1, 1, 0.55, 0.25, seed, EngineState.new, CavState.new, BioState.new⟩

/-- Source: `Voice::sample(&mut self, sample_rate) -> f32`. -/
def Voice.sample (ops : RealFns) (sample_rate : ℚ) (v : Voice) : Voice × ℚ :=
  if v.active = false then (v, 0)
  else
    let te := EngineState.tick ops sample_rate v.engine
    let e1 := te.1
    let tc := CavState.tick ops v.cav e1.current_rpm e1.phase v.rng
    let tb := BioState.tick ops sample_rate e1.current_rpm v.bio tc.2.1
    ({ v with engine := e1, cav := tc.1, bio := tb.1, rng := tb.2.1 },
     (te.2 * v.engine_mix + tc.2.2 * v.cav_mix + tb.2.2 * v.bio_mix) * v.gain)

/-- Source: `pub struct DspGraph` -/
structure DspGraph where
  sample_rate : ℚ
  max_frames : ℕ
  last_frames : ℕ
  voices : List Voice
  output : List ℚ
  next_seed : ℕ
deriving DecidableEq, Repr

/-- Source: `DspGraph::new(sample_rate, max_frames, max_voices)`: every slot holds a
`Voice::new(0)` immediately deactivated. -/
def DspGraph.new (sample_rate : ℚ) (max_frames max_voices : ℕ) : DspGraph :=
  { sample_rate := sample_rate
    max_frames := max max_frames 1
    last_frames := 0
    voices := List.replicate (max max_voices 1) { Voice.new 0 with active := false }
    output := List.replicate (max max_frames 1) 0
    next_seed := 0x1234abcd }

/-- The linear scan of `DspGraph::add_voice`: index of the first inactive slot. -/
def firstInactive : List Voice → Option ℕ
  | [] => none
  | v :: rest => if v.active then (firstInactive rest).map (· + 1) else some 0

/-- Source: `DspGraph::add_voice(&mut self) -> i32` -/
def DspGraph.add_voice (g : DspGraph) : DspGraph × Int :=
  match firstInactive g.voices with
  | some i =>
    let seed := u32mask (g.next_seed + 0x9e3779b9)
    ({ g with next_seed := seed, voices := g.voices.set i (Voice.new seed) }, (i : Int))
  | none => (g, -1)

/-- Source: `DspGraph::remove_voice(&mut self, voice_id) -> bool` -/
def DspGraph.remove_voice (g : DspGraph) (voice_id : ℕ) : DspGraph × Bool :=
  match g.voices[voice_id]? with
  | none => (g, false)
  | some v => ({ g with voices := g.voices.set voice_id { v with active := false } }, true)

/-- Replace the voice at index `i`. -/
def DspGraph.setVoice (g : DspGraph) (i : ℕ) (v : Voice) : DspGraph :=
  { g with voices := g.voices.set i v }

/-- Source: `DspGraph::set_param(&mut self, voice_id, param_id, value) -> bool`.
Parameter ids 0-7 are `PARAM_RPM`, `PARAM_BLADES`, `PARAM_GAIN`,
`PARAM_ENGINE_MIX`, `PARAM_CAV_MIX`, `PARAM_BIO_MIX`, `PARAM_BIO_TYPE`,
`PARAM_BIO_RATE`. -/
def DspGraph.set_param (g : DspGraph) (voice_id param_id : ℕ) (value : ℚ) :
    DspGraph × Bool :=
  match g.voices[voice_id]? with
  | none => (g, false)
  | some v =>
    if v.active = false then (g, false)
    else if param_id = 0 then
      (g.setVoice voice_id { v with engine := { v.engine with target_rpm := max value 0 } }, true)
    else if param_id = 1 then
      (g.setVoice voice_id { v with engine := { v.engine with blades := clamp value 1 12 } }, true)
    else if param_id = 2 then
      (g.setVoice voice_id { v with gain := clamp value 0 2 }, true)
    else if param_id = 3 then
      (g.setVoice voice_id { v with engine_mix := clamp value 0 1.5 }, true)
    else if param_id = 4 then
      (g.setVoice voice_id { v with cav_mix := clamp value 0 1.5 }, true)
    else if param_id = 5 then
      (g.setVoice voice_id { v with bio_mix := clamp value 0 1.5 }, true)
    else if param_id = 6 then
      (g.setVoice voice_id { v with bio := BioState.set_type v.bio (BioType.from_param value) }, true)
    else if param_id = 7 then
      (g.setVoice voice_id { v with bio := BioState.set_rate v.bio value }, true)
    else (g, false)

/-- One output sample of `DspGraph::process`: tick every voice in order and
sum the results (starting from `0.0`). -/
def renderStep (ops : RealFns) (sample_rate : ℚ) (voices : List Voice) :
    List Voice × ℚ :=
  voices.foldl
    (fun (acc : List Voice × ℚ) v =>
      let t := Voice.sample ops sample_rate v
      (acc.1 ++ [t.1], acc.2 + t.2))
    ([], 0)

/-- The per-frame loop of `DspGraph::process`: returns the final voice states
and the written output samples (each `mix.tanh()`), in order. -/
def renderFrames (ops : RealFns) (sample_rate : ℚ) :
    ℕ → List Voice → List Voice × List ℚ
  | 0, vs => (vs, [])
  | n + 1, vs =>
    let t := renderStep ops sample_rate vs
    let r := renderFrames ops sample_rate n t.1
    (r.1, ops.tanh t.2 :: r.2)

/-- Source: `DspGraph::process(&mut self, frames)`: clamps the frame count, renders,
and overwrites the first `n` slots of the output buffer. -/
def DspGraph.process (ops : RealFns) (g : DspGraph) (frames : ℕ) : DspGraph :=
  let n := min frames g.max_frames
  let r := renderFrames ops g.sample_rate n g.voices
  { g with last_frames := n, voices := r.1, output := r.2 ++ g.output.drop n }

/-! ## Theorems -/

theorem engine_tick_stall (ops : RealFns) (sample_rate : ℚ) (s : EngineState)
    (h : s.current_rpm * 0.99 + s.target_rpm * 0.01 < 0.05) :
    EngineState.tick ops sample_rate s
      = ({ s with current_rpm := s.current_rpm * 0.99 + s.target_rpm * 0.01 }, 0) := by
  simp [EngineState.tick, h]

theorem engine_tick_target_rpm (ops : RealFns) (sample_rate : ℚ) (s : EngineState) :
    (EngineState.tick ops sample_rate s).1.target_rpm = s.target_rpm := by
  by_cases h : s.current_rpm * 0.99 + s.target_rpm * 0.01 < 0.05 <;>
    simp [EngineState.tick, h]

theorem engine_tick_current_rpm (ops : RealFns) (sample_rate : ℚ) (s : EngineState) :
    (EngineState.tick ops sample_rate s).1.current_rpm
      = s.current_rpm * 0.99 + s.target_rpm * 0.01 := by
  by_cases h : s.current_rpm * 0.99 + s.target_rpm * 0.01 < 0.05 <;>
    simp [EngineState.tick, h]

theorem engine_stalled_step (ops : RealFns) (sample_rate : ℚ) (s : EngineState)
    (ht : s.target_rpm = 0) (hc : s.current_rpm < 0.05) :
    (EngineState.tick ops sample_rate s).1.target_rpm = 0
    ∧ (EngineState.tick ops sample_rate s).1.current_rpm < 0.05
    ∧ (EngineState.tick ops sample_rate s).1.phase = s.phase
    ∧ (EngineState.tick ops sample_rate s).2 = 0 := by
  have h : s.current_rpm * 0.99 + s.target_rpm * 0.01 < 0.05 := by
    rw [ht]; nlinarith
  rw [engine_tick_stall ops sample_rate s h]
  refine ⟨ht, ?_, rfl, rfl⟩
  rw [ht]; nlinarith

theorem engine_stalled_run (ops : RealFns) (sample_rate : ℚ) :
    ∀ (n : ℕ) (s : EngineState), s.target_rpm = 0 → s.current_rpm < 0.05 →
      (EngineState.run ops sample_rate n s).target_rpm = 0
      ∧ (EngineState.run ops sample_rate n s).current_rpm < 0.05
      ∧ (EngineState.run ops sample_rate n s).phase = s.phase
  | 0, s, ht, hc => ⟨ht, hc, rfl⟩
  | n + 1, s, ht, hc => by
    obtain ⟨h1, h2, h3, _⟩ := engine_stalled_step ops sample_rate s ht hc
    obtain ⟨g1, g2, g3⟩ :=
      engine_stalled_run ops sample_rate n (EngineState.tick ops sample_rate s).1 h1 h2
    exact ⟨g1, g2, by rw [EngineState.run, g3, h3]⟩

/-- C1: one engine tick first smooths `current_rpm` to
`0.99 * current_rpm + 0.01 * target_rpm`; if the smoothed value is below
`0.05` the tick outputs exactly `0` and leaves `phase` unchanged; and once
`target_rpm` is `0` and `current_rpm` has decayed below `0.05`, every
subsequent tick outputs exactly `0` (with `phase` frozen) as long as
`target_rpm` stays `0`. -/
theorem engine_stall_cutoff (ops : RealFns) (sample_rate : ℚ) (s : EngineState)
    (hsr : 0 < sample_rate) :
    (EngineState.tick ops sample_rate s).1.current_rpm
        = s.current_rpm * 0.99 + s.target_rpm * 0.01
    ∧ (s.current_rpm * 0.99 + s.target_rpm * 0.01 < 0.05 →
        (EngineState.tick ops sample_rate s).2 = 0
        ∧ (EngineState.tick ops sample_rate s).1.phase = s.phase)
    ∧ (s.target_rpm = 0 → s.current_rpm < 0.05 →
        ∀ n : ℕ,
          (EngineState.tick ops sample_rate (EngineState.run ops sample_rate n s)).2 = 0
          ∧ (EngineState.run ops sample_rate n s).phase = s.phase) := by
  refine ⟨engine_tick_current_rpm ops sample_rate s, ?_, ?_⟩
  · intro h
    rw [engine_tick_stall ops sample_rate s h]
    exact ⟨rfl, rfl⟩
  · intro ht hc n
    obtain ⟨g1, g2, g3⟩ := engine_stalled_run ops sample_rate n s ht hc
    exact ⟨(engine_stalled_step ops sample_rate _ g1 g2).2.2.2, g3⟩

theorem engine_stall_cutoff_witness :
    (EngineState.tick zeroFns 2 ⟨7, 1/100, 0, 5⟩).1.current_rpm
        = (1/100 : ℚ) * 0.99 + 0 * 0.01
    ∧ ((EngineState.tick zeroFns 2 ⟨7, 1/100, 0, 5⟩).2 = 0
        ∧ (EngineState.tick zeroFns 2 ⟨7, 1/100, 0, 5⟩).1.phase = 7)
    ∧ ((EngineState.tick zeroFns 2 (EngineState.run zeroFns 2 3 ⟨7, 1/100, 0, 5⟩)).2 = 0
        ∧ (EngineState.run zeroFns 2 3 ⟨7, 1/100, 0, 5⟩).phase = 7) := by
  obtain ⟨h1, h2, h3⟩ :=
    engine_stall_cutoff zeroFns 2 ⟨7, 1/100, 0, 5⟩ (by norm_num)
  exact ⟨h1, h2 (by norm_num), h3 rfl (by norm_num) 3⟩

theorem TWO_PI_pos : (0 : ℚ) < TWO_PI := by norm_num [TWO_PI, PI]

/-- C2 counterexample: the claimed invariant `phase ∈ [0, 2π)` is not
preserved by `EngineState::tick` for every state accepted by `set_param`:
with `target_rpm = 10^9` (accepted, since `set_param` only enforces
`target_rpm ≥ 0`), `blades = 5`, `sample_rate = 48000` and `phase = 0`,
a single tick leaves `phase` at a value not below `2π`, because the code
subtracts `2π` at most once while the per-sample increment exceeds `2π`. -/
theorem engine_phase_range_cex :
    (0 : ℚ) ≤ (⟨0, 0, 1000000000, 5⟩ : EngineState).phase
    ∧ (⟨0, 0, 1000000000, 5⟩ : EngineState).phase < TWO_PI
    ∧ (0 : ℚ) ≤ (⟨0, 0, 1000000000, 5⟩ : EngineState).target_rpm
    ∧ (0 : ℚ) < 48000
    ∧ ¬ ((EngineState.tick zeroFns 48000 ⟨0, 0, 1000000000, 5⟩).1.phase < TWO_PI) := by
  refine ⟨le_refl 0, TWO_PI_pos, by norm_num, by norm_num, ?_⟩
  with_unfolding_all decide

/-- C2 (amended): `phase ∈ [0, 2π)` is preserved by a tick whenever the
state's rpm fields and blade count are nonnegative, the sample rate is
positive, and the per-sample phase increment
`2π * (smoothed_rpm / 60 * blades) / sample_rate` is below `2π` (i.e. the
blade-passage frequency is below the sample rate). -/
theorem engine_phase_range_preserved (ops : RealFns) (sample_rate : ℚ)
    (s : EngineState) (hsr : 0 < sample_rate) (hc : 0 ≤ s.current_rpm)
    (ht : 0 ≤ s.target_rpm) (hb : 0 ≤ s.blades)
    (hdelta : TWO_PI * ((s.current_rpm * 0.99 + s.target_rpm * 0.01) / 60 * s.blades)
        / sample_rate < TWO_PI)
    (h0 : 0 ≤ s.phase) (h1 : s.phase < TWO_PI) :
    0 ≤ (EngineState.tick ops sample_rate s).1.phase
    ∧ (EngineState.tick ops sample_rate s).1.phase < TWO_PI := by
  by_cases hst : s.current_rpm * 0.99 + s.target_rpm * 0.01 < 0.05
  · rw [engine_tick_stall ops sample_rate s hst]
    exact ⟨h0, h1⟩
  · have hcur : 0 ≤ s.current_rpm * 0.99 + s.target_rpm * 0.01 := by nlinarith
    have hdnn : 0 ≤ TWO_PI * ((s.current_rpm * 0.99 + s.target_rpm * 0.01) / 60 * s.blades)
        / sample_rate := by
      have h2 : (0:ℚ) ≤ (s.current_rpm * 0.99 + s.target_rpm * 0.01) / 60 * s.blades := by
        apply mul_nonneg _ hb
        positivity
      exact div_nonneg (mul_nonneg TWO_PI_pos.le h2) hsr.le
    simp only [EngineState.tick, if_neg hst]
    by_cases hw : TWO_PI ≤ s.phase
        + TWO_PI * ((s.current_rpm * 0.99 + s.target_rpm * 0.01) / 60 * s.blades) / sample_rate
    · simp only [if_pos hw]
      constructor
      · linarith
      · linarith
    · simp only [if_neg hw]
      push_neg at hw
      constructor
      · linarith
      · linarith

theorem engine_phase_range_preserved_witness :
    (0 : ℚ) ≤ (EngineState.tick zeroFns 48000 ⟨1, 60, 60, 5⟩).1.phase
    ∧ (EngineState.tick zeroFns 48000 ⟨1, 60, 60, 5⟩).1.phase < TWO_PI := by
  exact engine_phase_range_preserved zeroFns 48000 ⟨1, 60, 60, 5⟩
    (by norm_num) (by norm_num) (by norm_num) (by norm_num)
    (by with_unfolding_all decide) (by norm_num) (by with_unfolding_all decide)

/-- C3: fewer than 64 input samples, a non-finite or non-positive sample
rate, or a decimated length (input length divided by the decimation factor)
below 8, all make `compute_demon_spectrum` return exactly
`max_freq_hz + 1` zeros. -/
theorem analyzer_degenerate_zeros (ops : RealFns) (input : List ℚ)
    (sr : F32) (max_freq : ℕ) (bl bh ehp drt : F32)
    (h : input.length < 64 ∨ sr.finite = false ∨ sr.val ≤ 0
        ∨ input.length / decimFactor sr.val (resolveDecim drt) < 8) :
    compute_demon_spectrum ops input sr max_freq bl bh ehp drt
      = List.replicate (max_freq + 1) 0 := by
  by_cases hA : input.length < 64 ∨ sr.finite = false ∨ sr.val ≤ 0
  · simp [compute_demon_spectrum, hA]
  · have hB : input.length / decimFactor sr.val (resolveDecim drt) < 8 := by
      rcases h with h | h | h | h
      · exact absurd (Or.inl h) hA
      · exact absurd (Or.inr (Or.inl h)) hA
      · exact absurd (Or.inr (Or.inr h)) hA
      · exact h
    simp [compute_demon_spectrum, hA, spectrumBody, hB]

theorem analyzer_degenerate_zeros_witness :
    compute_demon_spectrum zeroFns [] ⟨48000, true⟩ 2 ⟨0, false⟩ ⟨0, false⟩
        ⟨0, false⟩ ⟨0, false⟩ = List.replicate 3 0 := by
  exact analyzer_degenerate_zeros zeroFns [] ⟨48000, true⟩ 2 ⟨0, false⟩ ⟨0, false⟩
    ⟨0, false⟩ ⟨0, false⟩ (Or.inl (by decide))

/-- C10: for every input (valid or degenerate), `compute_demon_spectrum`
returns a vector of length exactly `max_freq_hz + 1` whose entry at index 0
is exactly 0 — magnitudes are only written into bins `1..max_freq_hz`. -/
theorem spectrum_shape (ops : RealFns) (input : List ℚ) (sr : F32)
    (max_freq : ℕ) (bl bh ehp drt : F32) :
    (compute_demon_spectrum ops input sr max_freq bl bh ehp drt).length = max_freq + 1
    ∧ (compute_demon_spectrum ops input sr max_freq bl bh ehp drt).head? = some 0 := by
  by_cases hA : input.length < 64 ∨ sr.finite = false ∨ sr.val ≤ 0
  · constructor <;> simp [compute_demon_spectrum, hA, List.replicate_succ]
  · by_cases hB : input.length / decimFactor sr.val (resolveDecim drt) < 8
    · constructor <;>
        simp [compute_demon_spectrum, hA, spectrumBody, hB, List.replicate_succ]
    · constructor <;> simp [compute_demon_spectrum, hA, spectrumBody, hB]

/-- Concrete `RealFns` instance used for counterexample evaluation. -/
def cxFns : RealFns where
  sin := fun _ => 0
  cos := fun q => q
  tanh := fun q => q
  hypot := fun a b => |a| + |b|
  pow := fun a _ => a

/-- A 64-sample impulse input used for counterexample evaluation. -/
def cxInput : List ℚ := 1 :: List.replicate 63 0

set_option maxRecDepth 10000 in
/-- C4 counterexample: a finite but out-of-range tunable does NOT behave as
if the fixed default had been passed.  `decimated_rate_target_hz = 99` is
finite and out of range (the valid minimum is 100); the code clamps it to
100, producing a decimation factor of 10 and hence an all-zero result for a
64-sample input at 1000 Hz, while the fixed default 500 produces a
decimation factor of 2 and a nonzero spectrum: the two outputs differ. -/
theorem analyzer_param_fallback_cex :
    (99 : ℚ) < 100
    ∧ compute_demon_spectrum cxFns cxInput ⟨1000, true⟩ 1 ⟨20, true⟩ ⟨1800, true⟩
          ⟨1, true⟩ ⟨99, true⟩
        ≠ compute_demon_spectrum cxFns cxInput ⟨1000, true⟩ 1 ⟨20, true⟩ ⟨1800, true⟩
          ⟨1, true⟩ ⟨500, true⟩ := by
  constructor
  · norm_num
  · with_unfolding_all decide

theorem resolveBandLow_finite (q : ℚ) : resolveBandLow ⟨q, true⟩ = max q 1 := by
  simp [resolveBandLow]

theorem cds_resolve_congr (ops : RealFns) (input : List ℚ) (sr : F32) (max_freq : ℕ)
    {bl bl' bh bh' ehp ehp' drt drt' : F32}
    (h1 : resolveBandLow bl = resolveBandLow bl')
    (h2 : resolveBandHigh (resolveBandLow bl) bh = resolveBandHigh (resolveBandLow bl') bh')
    (h3 : resolveEnvHp ehp = resolveEnvHp ehp')
    (h4 : resolveDecim drt = resolveDecim drt') :
    compute_demon_spectrum ops input sr max_freq bl bh ehp drt
      = compute_demon_spectrum ops input sr max_freq bl' bh' ehp' drt' := by
  simp only [compute_demon_spectrum]
  rw [h2, h1, h3, h4]

/-- C4 (amended): a NON-finite tunable frequency parameter falls back to its
fixed default (20 / 1800 / 1 / 500), and the analyzer then behaves as if
that default had been passed; a finite but out-of-range value, however, is
clamped to the nearest bound of its valid range (`band_low ≥ 1`,
`band_high ≥ band_low + 1`, `envelope_hp ≥ 0.1`,
`decimated_rate_target ≥ 100`) — the analyzer behaves as if the clamped
value, not the default, had been passed. -/
theorem analyzer_param_fallback (ops : RealFns) (input : List ℚ) (sr : F32)
    (max_freq : ℕ) (bl bh ehp drt : F32) :
    (bl.finite = false →
      compute_demon_spectrum ops input sr max_freq bl bh ehp drt
        = compute_demon_spectrum ops input sr max_freq ⟨20, true⟩ bh ehp drt)
    ∧ (∀ q : ℚ,
      compute_demon_spectrum ops input sr max_freq ⟨q, true⟩ bh ehp drt
        = compute_demon_spectrum ops input sr max_freq ⟨max q 1, true⟩ bh ehp drt)
    ∧ (bh.finite = false →
      resolveBandHigh (resolveBandLow bl) bh = 1800
      ∧ (resolveBandLow bl + 1 ≤ 1800 →
        compute_demon_spectrum ops input sr max_freq bl bh ehp drt
          = compute_demon_spectrum ops input sr max_freq bl ⟨1800, true⟩ ehp drt))
    ∧ (∀ q : ℚ,
      compute_demon_spectrum ops input sr max_freq bl ⟨q, true⟩ ehp drt
        = compute_demon_spectrum ops input sr max_freq bl
            ⟨max q (resolveBandLow bl + 1), true⟩ ehp drt)
    ∧ (ehp.finite = false →
      compute_demon_spectrum ops input sr max_freq bl bh ehp drt
        = compute_demon_spectrum ops input sr max_freq bl bh ⟨1, true⟩ drt)
    ∧ (∀ q : ℚ,
      compute_demon_spectrum ops input sr max_freq bl bh ⟨q, true⟩ drt
        = compute_demon_spectrum ops input sr max_freq bl bh ⟨max q 0.1, true⟩ drt)
    ∧ (drt.finite = false →
      compute_demon_spectrum ops input sr max_freq bl bh ehp drt
        = compute_demon_spectrum ops input sr max_freq bl bh ehp ⟨500, true⟩)
    ∧ (∀ q : ℚ,
      compute_demon_spectrum ops input sr max_freq bl bh ehp ⟨q, true⟩
        = compute_demon_spectrum ops input sr max_freq bl bh ehp ⟨max q 100, true⟩) := by
  refine ⟨?_, ?_, ?_, ?_, ?_, ?_, ?_, ?_⟩
  · intro h
    refine cds_resolve_congr ops input sr max_freq ?_ ?_ rfl rfl
    · rw [resolveBandLow_finite, max_eq_left (by norm_num : (1:ℚ) ≤ 20)]
      simp [resolveBandLow, h]
    · rw [show resolveBandLow bl = resolveBandLow ⟨20, true⟩ from by
        rw [resolveBandLow_finite, max_eq_left (by norm_num : (1:ℚ) ≤ 20)]
        simp [resolveBandLow, h]]
  · intro q
    refine cds_resolve_congr ops input sr max_freq ?_ ?_ rfl rfl
    · rw [resolveBandLow_finite, resolveBandLow_finite, max_assoc, max_self]
    · rw [show resolveBandLow ⟨q, true⟩ = resolveBandLow ⟨max q 1, true⟩ from by
        rw [resolveBandLow_finite, resolveBandLow_finite, max_assoc, max_self]]
  · intro h
    have hbh : resolveBandHigh (resolveBandLow bl) bh = 1800 := by
      simp [resolveBandHigh, h]
    refine ⟨hbh, fun hle => ?_⟩
    refine cds_resolve_congr ops input sr max_freq rfl ?_ rfl rfl
    rw [hbh]
    simp only [resolveBandHigh, if_true]
    rw [max_eq_left hle]
  · intro q
    refine cds_resolve_congr ops input sr max_freq rfl ?_ rfl rfl
    simp only [resolveBandHigh, if_pos rfl]
    rw [max_assoc, max_self]
  · intro h
    refine cds_resolve_congr ops input sr max_freq rfl rfl ?_ rfl
    simp only [resolveEnvHp, h, Bool.false_eq_true, if_false, if_true]
    rw [max_eq_left (by norm_num : (0.1:ℚ) ≤ 1)]
  · intro q
    refine cds_resolve_congr ops input sr max_freq rfl rfl ?_ rfl
    simp only [resolveEnvHp, if_pos rfl]
    rw [max_assoc, max_self]
  · intro h
    refine cds_resolve_congr ops input sr max_freq rfl rfl rfl ?_
    simp only [resolveDecim, h, Bool.false_eq_true, if_false, if_true]
    rw [max_eq_left (by norm_num : (100:ℚ) ≤ 500)]
  · intro q
    refine cds_resolve_congr ops input sr max_freq rfl rfl rfl ?_
    simp only [resolveDecim, if_pos rfl]
    rw [max_assoc, max_self]

theorem analyzer_param_fallback_witness :
    compute_demon_spectrum zeroFns [] ⟨1, true⟩ 0 ⟨5, false⟩ ⟨6, false⟩ ⟨7, false⟩ ⟨8, false⟩
      = compute_demon_spectrum zeroFns [] ⟨1, true⟩ 0 ⟨20, true⟩ ⟨6, false⟩ ⟨7, false⟩ ⟨8, false⟩
    ∧ compute_demon_spectrum zeroFns [] ⟨1, true⟩ 0 ⟨0.5, true⟩ ⟨6, false⟩ ⟨7, false⟩ ⟨8, false⟩
      = compute_demon_spectrum zeroFns [] ⟨1, true⟩ 0 ⟨max 0.5 1, true⟩ ⟨6, false⟩ ⟨7, false⟩
          ⟨8, false⟩ := by
  exact ⟨(analyzer_param_fallback zeroFns [] ⟨1, true⟩ 0 ⟨5, false⟩ ⟨6, false⟩ ⟨7, false⟩
            ⟨8, false⟩).1 rfl,
         (analyzer_param_fallback zeroFns [] ⟨1, true⟩ 0 ⟨5, false⟩ ⟨6, false⟩ ⟨7, false⟩
            ⟨8, false⟩).2.1 0.5⟩

theorem voice_sample_inactive (ops : RealFns) (sample_rate : ℚ) (v : Voice)
    (h : v.active = false) : Voice.sample ops sample_rate v = (v, 0) := by
  simp [Voice.sample, h]

theorem renderStep_fold_inactive (ops : RealFns) (sample_rate : ℚ) :
    ∀ (vs : List Voice) (acc : List Voice × ℚ), (∀ v ∈ vs, v.active = false) →
      vs.foldl
        (fun (acc : List Voice × ℚ) v =>
          let t := Voice.sample ops sample_rate v
          (acc.1 ++ [t.1], acc.2 + t.2)) acc
        = (acc.1 ++ vs, acc.2)
  | [], acc, _ => by simp
  | v :: vs, acc, h => by
    have hv : v.active = false := h v (List.mem_cons_self v vs)
    have hrest : ∀ w ∈ vs, w.active = false := fun w hw => h w (List.mem_cons_of_mem v hw)
    simp only [List.foldl_cons, voice_sample_inactive ops sample_rate v hv]
    rw [renderStep_fold_inactive ops sample_rate vs _ hrest]
    simp

theorem renderStep_inactive (ops : RealFns) (sample_rate : ℚ) (vs : List Voice)
    (h : ∀ v ∈ vs, v.active = false) : renderStep ops sample_rate vs = (vs, 0) := by
  rw [renderStep, renderStep_fold_inactive ops sample_rate vs ([], 0) h]
  simp

theorem renderFrames_inactive (ops : RealFns) (sample_rate : ℚ) :
    ∀ (n : ℕ) (vs : List Voice), (∀ v ∈ vs, v.active = false) →
      renderFrames ops sample_rate n vs = (vs, List.replicate n (ops.tanh 0))
  | 0, vs, _ => rfl
  | n + 1, vs, h => by
    rw [renderFrames, renderStep_inactive ops sample_rate vs h,
      renderFrames_inactive ops sample_rate n vs h]
    simp [List.replicate_succ]

/-- C5: an inactive voice's `sample` returns exactly `0` and leaves the
whole voice — RNG state and all sub-generator state included — unchanged;
consequently a freshly constructed pool (all voices inactive) renders an
all-zero output block for any requested frame count. -/
theorem inactive_silence (ops : RealFns) (sample_rate : ℚ) :
    (∀ v : Voice, v.active = false → Voice.sample ops sample_rate v = (v, 0))
    ∧ (∀ max_frames max_voices frames : ℕ, ops.tanh 0 = 0 →
        (DspGraph.process ops (DspGraph.new sample_rate max_frames max_voices) frames).output
          = List.replicate (max max_frames 1) 0) := by
  constructor
  · exact fun v h => voice_sample_inactive ops sample_rate v h
  · intro max_frames max_voices frames htanh
    have hrep : ∀ (k : ℕ) (w : Voice), w.active = false →
        ∀ v ∈ List.replicate k w, v.active = false := by
      intro k w hw v hv
      rw [List.eq_of_mem_replicate hv]
      exact hw
    simp only [DspGraph.process, DspGraph.new, List.drop_replicate]
    rw [renderFrames_inactive ops sample_rate _ _ (hrep _ _ rfl), htanh,
      ← List.replicate_add]
    congr 1
    omega

theorem inactive_silence_witness :
    Voice.sample zeroFns 48000 { Voice.new 0 with active := false }
        = ({ Voice.new 0 with active := false }, 0)
    ∧ (DspGraph.process zeroFns (DspGraph.new 48000 2 1) 5).output
        = List.replicate 2 0 := by
  refine ⟨(inactive_silence zeroFns 48000).1 _ rfl, ?_⟩
  have h := (inactive_silence zeroFns 48000).2 2 1 5 rfl
  simpa using h

/-- C6: `set_param` with an out-of-range voice index, an inactive slot, or a
parameter id outside the eight known ids (0-7) fails with `false` and leaves
the whole pool — every voice, every field — unchanged. -/
theorem set_param_rejects_invalid (g : DspGraph) (voice_id param_id : ℕ) (value : ℚ)
    (h : g.voices.length ≤ voice_id
        ∨ (∃ v, g.voices[voice_id]? = some v ∧ v.active = false)
        ∨ 8 ≤ param_id) :
    DspGraph.set_param g voice_id param_id value = (g, false) := by
  rcases h with h | ⟨v, hv, hva⟩ | h
  · have hnone : g.voices[voice_id]? = none := by
      rw [List.getElem?_eq_none_iff]
      exact h
    simp [DspGraph.set_param, hnone]
  · simp [DspGraph.set_param, hv, hva]
  · have h0 : param_id ≠ 0 := by omega
    have h1 : param_id ≠ 1 := by omega
    have h2 : param_id ≠ 2 := by omega
    have h3 : param_id ≠ 3 := by omega
    have h4 : param_id ≠ 4 := by omega
    have h5 : param_id ≠ 5 := by omega
    have h6 : param_id ≠ 6 := by omega
    have h7 : param_id ≠ 7 := by omega
    cases hv : g.voices[voice_id]? with
    | none => simp [DspGraph.set_param, hv]
    | some v =>
      cases hva : v.active with
      | false => simp [DspGraph.set_param, hv, hva]
      | true => simp [DspGraph.set_param, hv, hva, h0, h1, h2, h3, h4, h5, h6, h7]

theorem set_param_rejects_invalid_witness :
    DspGraph.set_param (DspGraph.new 48000 4 2) 5 0 100 = (DspGraph.new 48000 4 2, false) := by
  exact set_param_rejects_invalid (DspGraph.new 48000 4 2) 5 0 100
    (Or.inl (by with_unfolding_all decide))

theorem firstInactive_some :
    ∀ (vs : List Voice) (i : ℕ), firstInactive vs = some i →
      i < vs.length
      ∧ (∀ v, vs[i]? = some v → v.active = false)
      ∧ (∀ j, j < i → ∀ v, vs[j]? = some v → v.active = true)
  | [], i, h => by simp [firstInactive] at h
  | v :: rest, i, h => by
    cases hva : v.active with
    | false =>
      rw [firstInactive, hva, if_neg (by simp)] at h
      have hi0 : i = 0 := (Option.some_inj.mp h).symm
      subst hi0
      refine ⟨by simp, ?_, ?_⟩
      · intro w hw
        simp only [List.getElem?_cons_zero, Option.some_inj] at hw
        rw [← hw]; exact hva
      · intro j hj; omega
    | true =>
      rw [firstInactive, hva, if_pos rfl] at h
      obtain ⟨i', hi', rfl⟩ := Option.map_eq_some'.mp h
      obtain ⟨g1, g2, g3⟩ := firstInactive_some rest i' hi'
      refine ⟨by simp; omega, ?_, ?_⟩
      · intro w hw
        rw [List.getElem?_cons_succ] at hw
        exact g2 w hw
      · intro j hj w hw
        cases j with
        | zero =>
          simp only [List.getElem?_cons_zero, Option.some_inj] at hw
          rw [← hw]; exact hva
        | succ j' =>
          rw [List.getElem?_cons_succ] at hw
          exact g3 j' (by omega) w hw

theorem firstInactive_none_of_all :
    ∀ vs : List Voice, (∀ v ∈ vs, v.active = true) → firstInactive vs = none
  | [], _ => rfl
  | v :: rest, h => by
    rw [firstInactive, h v (List.mem_cons_self v rest), if_pos rfl,
      firstInactive_none_of_all rest (fun w hw => h w (List.mem_cons_of_mem v hw))]
    rfl

/-- C7: `add_voice` scans the voice array linearly; at the first inactive
slot it increments the pool's seed counter (32-bit wrapping add of
`0x9e37_79b9`), reinstalls a from-scratch `Voice::new` with the fresh seed
(active, with engine, cavitation and biological state reset to their initial
values) and returns the slot index; if every slot is active it returns the
sentinel `-1` and mutates nothing. -/
theorem add_voice_alloc (g : DspGraph) :
    (∀ i, firstInactive g.voices = some i →
        i < g.voices.length
        ∧ (∀ v, g.voices[i]? = some v → v.active = false)
        ∧ (∀ j, j < i → ∀ v, g.voices[j]? = some v → v.active = true)
        ∧ DspGraph.add_voice g
            = ({ g with next_seed := u32mask (g.next_seed + 0x9e3779b9),
                        voices := g.voices.set i
                          (Voice.new (u32mask (g.next_seed + 0x9e3779b9))) },
               (i : Int))
        ∧ (DspGraph.add_voice g).1.voices[i]?
            = some (Voice.new (u32mask (g.next_seed + 0x9e3779b9)))
        ∧ (Voice.new (u32mask (g.next_seed + 0x9e3779b9))).active = true
        ∧ (Voice.new (u32mask (g.next_seed + 0x9e3779b9))).engine = EngineState.new
        ∧ (Voice.new (u32mask (g.next_seed + 0x9e3779b9))).cav = CavState.new
        ∧ (Voice.new (u32mask (g.next_seed + 0x9e3779b9))).bio = BioState.new)
    ∧ ((∀ v ∈ g.voices, v.active = true) → DspGraph.add_voice g = (g, -1)) := by
  constructor
  · intro i hi
    obtain ⟨g1, g2, g3⟩ := firstInactive_some g.voices i hi
    have heq : DspGraph.add_voice g
        = ({ g with next_seed := u32mask (g.next_seed + 0x9e3779b9),
                    voices := g.voices.set i
                      (Voice.new (u32mask (g.next_seed + 0x9e3779b9))) },
           (i : Int)) := by
      rw [DspGraph.add_voice, hi]
    refine ⟨g1, g2, g3, heq, ?_, rfl, rfl, rfl, rfl⟩
    rw [heq]
    exact List.getElem?_set_eq_of_lt _ g1
  · intro h
    rw [DspGraph.add_voice, firstInactive_none_of_all g.voices h]

theorem add_voice_alloc_witness :
    DspGraph.add_voice (DspGraph.new 48000 4 2)
        = ({ DspGraph.new 48000 4 2 with
              next_seed := u32mask (0x1234abcd + 0x9e3779b9),
              voices := (DspGraph.new 48000 4 2).voices.set 0
                (Voice.new (u32mask (0x1234abcd + 0x9e3779b9))) }, 0)
    ∧ DspGraph.add_voice ⟨48000, 1, 0, [Voice.new 5], [0], 7⟩
        = (⟨48000, 1, 0, [Voice.new 5], [0], 7⟩, -1) := by
  constructor
  · exact ((add_voice_alloc (DspGraph.new 48000 4 2)).1 0
      (by with_unfolding_all decide)).2.2.2.1
  · refine (add_voice_alloc ⟨48000, 1, 0, [Voice.new 5], [0], 7⟩).2 ?_
    intro v hv
    simp only [List.mem_singleton] at hv
    rw [hv]
    rfl

/-- C8: every known parameter written through `set_param` on an active voice
is clamped to its fixed range before assignment: gain 5.0 is stored as
exactly 2.0 (the documented maximum) and a general gain as `clamp value 0 2`,
never above 2; blade count 0 is stored as exactly 1; biological rate is
clamped into [0, 1]; the RPM target is clamped to be nonnegative; each of
the engine/cavitation/biological mix levels is clamped into [0, 1.5]; and
the biological mode selector is rounded and clamped into the integer range
[0, 5] before being mapped to a mode. -/
theorem set_param_clamps (g : DspGraph) (i : ℕ) (v : Voice)
    (hv : g.voices[i]? = some v) (ha : v.active = true) :
    (DspGraph.set_param g i 2 5).1.voices[i]? = some { v with gain := 2 }
    ∧ (DspGraph.set_param g i 1 0).1.voices[i]?
        = some { v with engine := { v.engine with blades := 1 } }
    ∧ (∀ x : ℚ, (DspGraph.set_param g i 2 x).1.voices[i]?
          = some { v with gain := clamp x 0 2 } ∧ clamp x 0 2 ≤ 2)
    ∧ (∀ x : ℚ, (DspGraph.set_param g i 7 x).1.voices[i]?
          = some { v with bio := { v.bio with bio_rate := clamp x 0 1 } }
        ∧ 0 ≤ clamp x 0 1 ∧ clamp x 0 1 ≤ 1)
    ∧ (∀ x : ℚ, (DspGraph.set_param g i 0 x).1.voices[i]?
          = some { v with engine := { v.engine with target_rpm := max x 0 } }
        ∧ 0 ≤ max x 0)
    ∧ (∀ x : ℚ, (DspGraph.set_param g i 1 x).1.voices[i]?
          = some { v with engine := { v.engine with blades := clamp x 1 12 } }
        ∧ 1 ≤ clamp x 1 12 ∧ clamp x 1 12 ≤ 12)
    ∧ (∀ x : ℚ, (DspGraph.set_param g i 3 x).1.voices[i]?
          = some { v with engine_mix := clamp x 0 1.5 }
        ∧ 0 ≤ clamp x 0 1.5 ∧ clamp x 0 1.5 ≤ 1.5)
    ∧ (∀ x : ℚ, (DspGraph.set_param g i 4 x).1.voices[i]?
          = some { v with cav_mix := clamp x 0 1.5 }
        ∧ 0 ≤ clamp x 0 1.5 ∧ clamp x 0 1.5 ≤ 1.5)
    ∧ (∀ x : ℚ, (DspGraph.set_param g i 5 x).1.voices[i]?
          = some { v with bio_mix := clamp x 0 1.5 }
        ∧ 0 ≤ clamp x 0 1.5 ∧ clamp x 0 1.5 ≤ 1.5)
    ∧ (∀ x : ℚ, (DspGraph.set_param g i 6 x).1.voices[i]?
          = some { v with bio := BioState.set_type v.bio (BioType.from_param x) }
        ∧ (0 : ℤ) ≤ min (max (round x) 0) 5 ∧ min (max (round x) 0) 5 ≤ 5
        ∧ ∀ y : ℚ, min (max (round x) 0) 5 = min (max (round y) 0) 5 →
            BioType.from_param x = BioType.from_param y) := by
  have hlt : i < g.voices.length := by
    rcases List.getElem?_eq_some.mp hv with ⟨h, _⟩
    exact h
  have hset : ∀ w : Voice, (DspGraph.setVoice g i w).voices[i]? = some w := by
    intro w
    exact List.getElem?_set_eq_of_lt _ hlt
  have hact : ¬ (v.active = false) := by rw [ha]; simp
  have e0 : ∀ x : ℚ, DspGraph.set_param g i 0 x
      = (g.setVoice i { v with engine := { v.engine with target_rpm := max x 0 } }, true) := by
    intro x
    simp only [DspGraph.set_param, hv]
    rw [if_neg hact]
    simp
  have e1 : ∀ x : ℚ, DspGraph.set_param g i 1 x
      = (g.setVoice i { v with engine := { v.engine with blades := clamp x 1 12 } }, true) := by
    intro x
    simp only [DspGraph.set_param, hv]
    rw [if_neg hact]
    simp
  have e2 : ∀ x : ℚ, DspGraph.set_param g i 2 x
      = (g.setVoice i { v with gain := clamp x 0 2 }, true) := by
    intro x
    simp only [DspGraph.set_param, hv]
    rw [if_neg hact]
    simp
  have e3 : ∀ x : ℚ, DspGraph.set_param g i 3 x
      = (g.setVoice i { v with engine_mix := clamp x 0 1.5 }, true) := by
    intro x
    simp only [DspGraph.set_param, hv]
    rw [if_neg hact]
    simp
  have e4 : ∀ x : ℚ, DspGraph.set_param g i 4 x
      = (g.setVoice i { v with cav_mix := clamp x 0 1.5 }, true) := by
    intro x
    simp only [DspGraph.set_param, hv]
    rw [if_neg hact]
    simp
  have e5 : ∀ x : ℚ, DspGraph.set_param g i 5 x
      = (g.setVoice i { v with bio_mix := clamp x 0 1.5 }, true) := by
    intro x
    simp only [DspGraph.set_param, hv]
    rw [if_neg hact]
    simp
  have e6 : ∀ x : ℚ, DspGraph.set_param g i 6 x
      = (g.setVoice i
          { v with bio := BioState.set_type v.bio (BioType.from_param x) }, true) := by
    intro x
    simp only [DspGraph.set_param, hv]
    rw [if_neg hact]
    simp
  have e7 : ∀ x : ℚ, DspGraph.set_param g i 7 x
      = (g.setVoice i { v with bio := BioState.set_rate v.bio x }, true) := by
    intro x
    simp only [DspGraph.set_param, hv]
    rw [if_neg hact]
    simp
  have hfp : ∀ x y : ℚ, min (max (round x) 0) 5 = min (max (round y) 0) 5 →
      BioType.from_param x = BioType.from_param y := by
    intro x y h
    unfold BioType.from_param
    rw [h]
  refine ⟨?_, ?_, ?_, ?_, ?_, ?_, ?_, ?_, ?_, ?_⟩
  · rw [e2 5, show clamp (5 : ℚ) 0 2 = 2 from by
      rw [clamp, max_eq_left (by norm_num : (0:ℚ) ≤ 5),
        min_eq_right (by norm_num : (2:ℚ) ≤ 5)]]
    exact hset _
  · rw [e1 0, show clamp (0 : ℚ) 1 12 = 1 from by
      rw [clamp, max_eq_right (by norm_num : (0:ℚ) ≤ 1),
        min_eq_left (by norm_num : (1:ℚ) ≤ 12)]]
    exact hset _
  · intro x
    exact ⟨by rw [e2 x]; exact hset _, min_le_right _ _⟩
  · intro x
    refine ⟨?_, le_min (le_max_right x 0) (by norm_num), min_le_right _ _⟩
    rw [e7 x]
    exact hset _
  · intro x
    exact ⟨by rw [e0 x]; exact hset _, le_max_right _ _⟩
  · intro x
    refine ⟨?_, le_min (le_max_right x 1) (by norm_num), min_le_right _ _⟩
    rw [e1 x]
    exact hset _
  · intro x
    refine ⟨?_, le_min (le_max_right x 0) (by norm_num), min_le_right _ _⟩
    rw [e3 x]
    exact hset _
  · intro x
    refine ⟨?_, le_min (le_max_right x 0) (by norm_num), min_le_right _ _⟩
    rw [e4 x]
    exact hset _
  · intro x
    refine ⟨?_, le_min (le_max_right x 0) (by norm_num), min_le_right _ _⟩
    rw [e5 x]
    exact hset _
  · intro x
    refine ⟨?_, le_min (le_max_right _ _) (by norm_num), min_le_right _ _, hfp x⟩
    rw [e6 x]
    exact hset _

theorem set_param_clamps_witness :
    (DspGraph.set_param ⟨48000, 1, 0, [Voice.new 9], [0], 7⟩ 0 2 5).1.voices[0]?
        = some { Voice.new 9 with gain := 2 }
    ∧ (DspGraph.set_param ⟨48000, 1, 0, [Voice.new 9], [0], 7⟩ 0 1 0).1.voices[0]?
        = some { Voice.new 9 with
                  engine := { (Voice.new 9).engine with blades := 1 } } := by
  have h := set_param_clamps ⟨48000, 1, 0, [Voice.new 9], [0], 7⟩ 0 (Voice.new 9) rfl rfl
  exact ⟨h.1, h.2.1⟩

theorem tick_mode_xfade (ops : RealFns) (sr rpm : ℚ) (b : BioState) (m : BioType)
    (rng : ℕ) : (BioState.tick_mode ops sr rpm b m rng).1.xfade = b.xfade := by
  cases m <;> simp [BioState.tick_mode]

theorem tick_mode_bio_type (ops : RealFns) (sr rpm : ℚ) (b : BioState) (m : BioType)
    (rng : ℕ) : (BioState.tick_mode ops sr rpm b m rng).1.bio_type = b.bio_type := by
  cases m <;> simp [BioState.tick_mode]

theorem tick_mode_bio_rate (ops : RealFns) (sr rpm : ℚ) (b : BioState) (m : BioType)
    (rng : ℕ) : (BioState.tick_mode ops sr rpm b m rng).1.bio_rate = b.bio_rate := by
  cases m <;> simp [BioState.tick_mode]

theorem tick_mode_sub_congr (ops : RealFns) (sr rpm : ℚ) (x y : BioState) (m : BioType)
    (rng : ℕ) (h : BioState.sub_eq x y m) (hrate : x.bio_rate = y.bio_rate) :
    BioState.sub_eq (BioState.tick_mode ops sr rpm x m rng).1
      (BioState.tick_mode ops sr rpm y m rng).1 m := by
  cases m <;> simp_all [BioState.tick_mode, BioState.sub_eq]

theorem tick_mode_sub_ne (ops : RealFns) (sr rpm : ℚ) (b : BioState) (m m' : BioType)
    (rng : ℕ) (h : m' ≠ m) :
    BioState.sub_eq (BioState.tick_mode ops sr rpm b m rng).1 b m' := by
  cases m <;> cases m' <;> simp_all [BioState.tick_mode, BioState.sub_eq]

theorem sub_eq_trans (x y z : BioState) (m : BioType)
    (h1 : BioState.sub_eq x y m) (h2 : BioState.sub_eq y z m) :
    BioState.sub_eq x z m := by
  cases m <;> exact h1.trans h2

theorem sub_eq_update_xfade (b : BioState) (q : ℚ) (m : BioType) :
    BioState.sub_eq { b with xfade := q } b m := by
  cases m <;> rfl

theorem bio_tick_xfade (ops : RealFns) (sr rpm : ℚ) (b : BioState) (rng : ℕ) :
    (BioState.tick ops sr rpm b rng).1.xfade
      = if b.xfade < 1 then min (b.xfade + 1 / (sr * 0.015)) 1 else b.xfade := by
  by_cases h : b.xfade < 1
  · simp only [BioState.tick, if_pos h]
    simp [tick_mode_xfade]
  · simp only [BioState.tick, if_neg h]
    simp [tick_mode_xfade, h]

theorem bio_run_xfade (ops : RealFns) (sr rpm : ℚ) (hsr : 0 < sr) :
    ∀ (n : ℕ) (p : BioState × ℕ), p.1.xfade ≤ 1 →
      (BioState.run ops sr rpm n p).1.xfade
        = min (p.1.xfade + (n : ℚ) * (1 / (sr * 0.015))) 1
  | 0, p, hp => by
    rw [BioState.run]
    simp [min_eq_left hp]
  | n + 1, p, hp => by
    have hstep : 0 < 1 / (sr * 0.015) := by positivity
    have hnn : 0 ≤ (n : ℚ) * (1 / (sr * 0.015)) := by positivity
    have hx : (BioState.tick ops sr rpm p.1 p.2).1.xfade
        = if p.1.xfade < 1 then min (p.1.xfade + 1 / (sr * 0.015)) 1 else p.1.xfade :=
      bio_tick_xfade ops sr rpm p.1 p.2
    have hle : (BioState.tick ops sr rpm p.1 p.2).1.xfade ≤ 1 := by
      rw [hx]
      by_cases h1 : p.1.xfade < 1
      · rw [if_pos h1]; exact min_le_right _ _
      · rw [if_neg h1]; exact hp
    rw [BioState.run, bio_run_xfade ops sr rpm hsr n _ hle]
    simp only [hx]
    have hexp : ((n : ℚ) + 1) * (1 / (sr * 0.015))
        = (n : ℚ) * (1 / (sr * 0.015)) + 1 / (sr * 0.015) := by ring
    by_cases h1 : p.1.xfade < 1
    · rw [if_pos h1]
      by_cases h2 : p.1.xfade + 1 / (sr * 0.015) ≤ 1
      · rw [min_eq_left h2]
        push_cast
        rw [hexp]
        ring_nf
      · push_neg at h2
        rw [min_eq_right h2.le, min_eq_right (by linarith), min_eq_right (by
          push_cast
          rw [hexp]
          linarith)]
    · push_neg at h1
      have hx1 : p.1.xfade = 1 := le_antisymm hp h1
      rw [if_neg (by rw [hx1]; exact lt_irrefl 1), hx1,
        min_eq_right (by linarith), min_eq_right (by
          push_cast
          rw [hexp]
          linarith)]

/-- C9: `set_mode` with the active mode is a no-op; with a different mode it
moves the active mode to `previous_mode`, installs the new mode and resets
the crossfade to 0.  Each tick with `crossfade < 1` ticks BOTH generators:
the previous generator ticks first on the shared RNG, and the active
generator then ticks on its own (previously untouched) sub-state with the
RNG as advanced by the previous generator's draws — the tick's returned RNG
is the one left after both ticks; every other sub-generator is untouched.
The crossfade follows `min (crossfade + 1/(sample_rate * 0.015), 1)`, is
monotone, and is exactly 1 after `⌈sample_rate * 0.015⌉` ticks (a 15 ms
window); once it reaches 1 only the active generator is ticked. -/
theorem bio_mode_crossfade (ops : RealFns) (sr rpm : ℚ) (b : BioState) (rng : ℕ)
    (next : BioType) :
    BioState.set_type b b.bio_type = b
    ∧ (next ≠ b.bio_type →
        BioState.set_type b next
          = { b with prev_type := b.bio_type, bio_type := next, xfade := 0 })
    ∧ ((BioState.tick ops sr rpm b rng).1.xfade
        = if b.xfade < 1 then min (b.xfade + 1 / (sr * 0.015)) 1 else b.xfade)
    ∧ (0 < sr → b.xfade ≤ (BioState.tick ops sr rpm b rng).1.xfade)
    ∧ (b.xfade < 1 → b.prev_type ≠ b.bio_type →
        BioState.sub_eq (BioState.tick ops sr rpm b rng).1
          (BioState.tick_mode ops sr rpm b b.prev_type rng).1 b.prev_type)
    ∧ (b.xfade < 1 → ∀ m, m ≠ b.prev_type → m ≠ b.bio_type →
        BioState.sub_eq (BioState.tick ops sr rpm b rng).1 b m)
    ∧ (¬ b.xfade < 1 → ∀ m, m ≠ b.bio_type →
        BioState.sub_eq (BioState.tick ops sr rpm b rng).1 b m)
    ∧ (0 < sr → b.xfade = 0 → ∀ n : ℕ, Nat.ceil (sr * 0.015) ≤ n →
        (BioState.run ops sr rpm n (b, rng)).1.xfade = 1)
    ∧ (b.xfade < 1 → b.prev_type ≠ b.bio_type →
        BioState.sub_eq (BioState.tick ops sr rpm b rng).1
          (BioState.tick_mode ops sr rpm b b.bio_type
            (BioState.tick_mode ops sr rpm b b.prev_type rng).2.1).1 b.bio_type)
    ∧ (b.xfade < 1 →
        (BioState.tick ops sr rpm b rng).2.1
          = (BioState.tick_mode ops sr rpm
              (BioState.tick_mode ops sr rpm b b.prev_type rng).1 b.bio_type
              (BioState.tick_mode ops sr rpm b b.prev_type rng).2.1).2.1) := by
  refine ⟨by simp [BioState.set_type], ?_, bio_tick_xfade ops sr rpm b rng, ?_, ?_, ?_,
    ?_, ?_, ?_, ?_⟩
  · intro h
    simp [BioState.set_type, h]
  · intro hsr
    have hstep : 0 < 1 / (sr * 0.015) := by positivity
    rw [bio_tick_xfade]
    by_cases h : b.xfade < 1
    · rw [if_pos h]
      exact le_min (by linarith) h.le
    · rw [if_neg h]
  · intro h hne
    simp only [BioState.tick, if_pos h]
    refine sub_eq_trans _ _ _ b.prev_type (sub_eq_update_xfade _ _ _) ?_
    exact tick_mode_sub_ne ops sr rpm _ _ _ _ (by
      rw [tick_mode_bio_type]
      exact hne)
  · intro h m hm1 hm2
    simp only [BioState.tick, if_pos h]
    refine sub_eq_trans _ _ _ m (sub_eq_update_xfade _ _ _) ?_
    refine sub_eq_trans _ _ _ m ?_ (tick_mode_sub_ne ops sr rpm b b.prev_type m rng hm1)
    exact tick_mode_sub_ne ops sr rpm _ _ _ _ (by
      rw [tick_mode_bio_type]
      exact hm2)
  · intro h m hm
    simp only [BioState.tick, if_neg h]
    exact tick_mode_sub_ne ops sr rpm b b.bio_type m rng hm
  · intro hsr h0 n hn
    have hpos : (0 : ℚ) < sr * 0.015 := by positivity
    have hrun := bio_run_xfade ops sr rpm hsr n (b, rng) (by
      show b.xfade ≤ 1
      rw [h0]; norm_num)
    have hcast : sr * 0.015 ≤ (n : ℚ) :=
      le_trans (Nat.le_ceil _) (by exact_mod_cast hn)
    have hone : (sr * 0.015) * (1 / (sr * 0.015)) = 1 := by
      field_simp
    have hmul := mul_le_mul_of_nonneg_right hcast (by positivity : (0:ℚ) ≤ 1 / (sr * 0.015))
    rw [hrun]
    show min (b.xfade + (n : ℚ) * (1 / (sr * 0.015))) 1 = 1
    rw [h0, zero_add, min_eq_right (by linarith)]
  · intro h hne
    simp only [BioState.tick, if_pos h]
    refine sub_eq_trans _ _ _ b.bio_type (sub_eq_update_xfade _ _ _) ?_
    rw [tick_mode_bio_type]
    exact tick_mode_sub_congr ops sr rpm _ _ _ _
      (tick_mode_sub_ne ops sr rpm b b.prev_type b.bio_type rng (Ne.symm hne))
      (tick_mode_bio_rate ops sr rpm b b.prev_type rng)
  · intro h
    simp only [BioState.tick, if_pos h]
    rw [tick_mode_bio_type]

theorem bio_mode_crossfade_witness :
    BioState.set_type BioState.new BioState.new.bio_type = BioState.new
    ∧ BioState.set_type BioState.new BioType.WhaleMoan
        = { BioState.new with
            prev_type := (BioState.new.bio_type)
            bio_type := BioType.WhaleMoan
            xfade := 0 }
    ∧ (BioState.run zeroFns 1000 0 15
        (BioState.set_type BioState.new BioType.WhaleMoan, 1)).1.xfade = 1 := by
  refine ⟨(bio_mode_crossfade zeroFns 1000 0 BioState.new 1 BioType.WhaleMoan).1,
    (bio_mode_crossfade zeroFns 1000 0 BioState.new 1 BioType.WhaleMoan).2.1
      (by decide), ?_⟩
  exact (bio_mode_crossfade zeroFns 1000 0
      (BioState.set_type BioState.new BioType.WhaleMoan) 1 BioType.Chirp).2.2.2.2.2.2.2.1
    (by norm_num) (by with_unfolding_all decide) 15 (by with_unfolding_all decide)

end SilentAbyss
